import Mathlib

/-!
Shallow embedding of `src/user_sync/engine/sign.py` (class `SignSyncEngine`).

Directory and Sign users are loosely-typed Python dicts in the source; they are
modelled here as structures whose fields are the dict keys the engine reads.
Python dicts used as maps are modelled as association lists with first-key-wins
lookup (insertion keeps keys unique via `upsert`, matching dict semantics).
Connector calls that the engine wraps in `try` blocks are modelled as returning
`Except PyErr Unit`; the trace of issued API calls is collected in a list of
`Action`s, and an uncaught exception is carried as `Option PyErr` next to the
trace of calls issued before it escaped.
-/

set_option autoImplicit false

namespace UserSync

/-- Python exception classes as seen by the engine's `except` clauses.
Modelled from the spec: `user_sync/error.py` is not under `src/`.  Per spec §6
and §7 every failing connector operation is reported as an error; the project's
error class is `AssertionException` (imported on line 10 of `sign.py` and caught
by `insert_new_users` and `deactivate_user`), which is a class distinct from
Python's built-in `AssertionError`, so an `except AssertionError` clause does
not catch it. -/
inductive PyErr where
  | assertionError (msg : String)
  | assertionException (msg : String)
  deriving DecidableEq, Repr

/-- A directory user record: the dict keys of `directory_user` that `sign.py`
reads.  `dtype` is the value at dict key `'type'` (read by `should_sync`);
`identity_type` is the value at dict key `'identity_type'` (read by
`get_identity_type_from_directory_user`), absent in some directory records. -/
structure DirUser where
  email : String
  firstname : String
  lastname : String
  username : Option String
  domain : Option String
  dtype : String
  identity_type : Option String
  groups : List String
  deriving DecidableEq, Repr

/-- The Sign connector's roles value for a user: `roles_match` special-cases a
plain string (`isinstance(sign_roles, str)`) versus a list of roles. -/
inductive SignRoles where
  | scalar (s : String)
  | list (l : List String)
  deriving DecidableEq, Repr

/-- The list `roles_match` compares after wrapping a scalar (`sign_roles = [sign_roles]`). -/
def SignRoles.asList : SignRoles → List String
  | .scalar s => [s]
  | .list l => l

/-- A Sign (target-system) user record: the dict keys of `sign_user` that
`sign.py` reads. -/
structure SignUser where
  userId : String
  email : String
  firstName : String
  lastName : String
  group : String
  roles : SignRoles
  deriving DecidableEq, Repr

/-- The `insert_data` payload built by `insert_new_users` (dict key order). -/
structure InsertData where
  email : String
  firstName : String
  groupId : String
  lastName : String
  roles : List String
  deriving DecidableEq, Repr

/-- The `update_data` payload built by `update_existing_users` (dict key order). -/
structure UpdateData where
  email : String
  firstName : String
  groupId : String
  lastName : String
  roles : List String
  deriving DecidableEq, Repr

/-- The `deactivation_data` payload built by `deactivate_user`. -/
structure DeactData where
  userStatus : String
  deriving DecidableEq, Repr

/-- One mutating API call issued to a Sign connector. -/
inductive Action where
  | createGroup (name : String)
  | insert (d : InsertData)
  | update (userId : String) (d : UpdateData)
  | deactivate (userId : String) (d : DeactData)
  deriving DecidableEq, Repr

/-- Result of running a piece of the engine: the mutating calls issued, in
order, and `some e` when exception `e` escaped uncaught (ending the run there). -/
abbrev Res := List Action × Option PyErr

/-- Sequencing with Python exception semantics: if `a` escaped, the rest does
not run; otherwise the traces concatenate. -/
def andThen (a : Res) (b : Unit → Res) : Res :=
  match a.2 with
  | some _ => a
  | none => ((a.1 ++ (b ()).1, (b ()).2))

/-- Run a loop body over a list, stopping at the first uncaught exception. -/
def runAll {α : Type} (l : List α) (f : α → Res) : Res :=
  match l with
  | [] => ([], none)
  | x :: xs => andThen (f x) (fun _ => runAll xs f)

/-- The Sign connector interface consumed by the engine (`SignConnector`), with
its read operations modelled as pure snapshots/functions and its mutating
operations as fallible calls. -/
structure SignConnector where
  sign_groups : List String
  get_users : List (String × SignUser)
  get_group : String → String
  insert_user : InsertData → Except PyErr Unit
  update_user : String → UpdateData → Except PyErr Unit
  deactivate_user : String → DeactData → Except PyErr Unit

/-- The directory connector interface: `load_users_and_groups(groups=...,
extended_attributes=..., all_users=...)`; `extended_attributes` is passed
through opaquely by the engine and is dropped here. -/
structure DirectoryConnector where
  load_users_and_groups : List String → Bool → List DirUser

/-- Python `dict.get(k, default)` / `defaultdict` lookup over an association list. -/
def pyGet {κ β : Type} [BEq κ] (m : List (κ × β)) (k : κ) (dflt : β) : β :=
  (m.lookup k).getD dflt

/-- Python `d[k] = v` on a dict modelled as an association list: replace the
binding if the key is present, else append it. -/
def upsert {κ β : Type} [BEq κ] (m : List (κ × β)) (k : κ) (v : β) : List (κ × β) :=
  match m with
  | [] => [(k, v)]
  | (k', v') :: rest => if k' == k then (k, v) :: rest else (k', v') :: upsert rest k v

/-- Python `defaultdict(list)`'s `m[k].append(v)`. -/
def appendAt {κ : Type} [BEq κ] (m : List (κ × List String)) (k : κ) (v : String) :
    List (κ × List String) :=
  match m with
  | [] => [(k, [v])]
  | (k', vs) :: rest => if k' == k then (k', vs ++ [v]) :: rest else (k', vs) :: appendAt rest k v

/-- Python set `s.add(x)` on a set modelled as a duplicate-free list in
insertion order. -/
def setAdd (l : List String) (x : String) : List String :=
  if x ∈ l then l else l ++ [x]

/-- Python set `s.update(xs)`. -/
def setUpdate (l : List String) (xs : List String) : List String :=
  xs.foldl setAdd l

/-- Python `str.lower()` (ASCII case folding), written over the character list
so that it evaluates inside the kernel. -/
def pyLower (s : String) : String := ⟨s.data.map Char.toLower⟩

/-- Python `str.strip()`: drop surrounding whitespace. -/
def pyStrip (s : String) : String :=
  ⟨((s.data.dropWhile Char.isWhitespace).reverse.dropWhile Char.isWhitespace).reverse⟩

/-- Python `c in s` for a single character (`username.find('@') >= 0`). -/
def pyContains (s : String) (c : Char) : Bool := s.data.contains c

/-- Split a character list at every occurrence of the two-character delimiter
`::` (Python `str.split('::')` semantics). -/
def splitOnColonsAux : List Char → List Char → List (List Char)
  | [], acc => [acc.reverse]
  | ':' :: ':' :: rest, acc => acc.reverse :: splitOnColonsAux rest []
  | c :: rest, acc => splitOnColonsAux rest (c :: acc)

/-- Python `s.split('::')`. -/
def pySplitOnColons (s : String) : List String :=
  (splitOnColonsAux s.data []).map (fun l => String.mk l)

/-- Python truthiness of an optional string (`None` and `''` are falsy). -/
def truthy : Option String → Bool
  | none => false
  | some s => !s.isEmpty

/-- Modelled from the spec: `user_sync.helper.normalize_string` is not under
`src/`.  Spec §4.1: the username (and the other key components) is normalized
by trimming surrounding whitespace and case-folding; `None` stays `None`. -/
def normalize_string (s : Option String) : Option String :=
  s.map (fun t => pyLower (pyStrip t))

/-- Modelled from the spec: `user_sync.identity_type.parse_identity_type` is
not under `src/`.  Spec §4.1: the identity type is parsed against the fixed
allow-list of the three known identity types (spec §6), and missing or
unparsable input fails (returns an invalid/empty result rather than a useful
key component). -/
def parse_identity_type (s : Option String) : Option String :=
  match s with
  | none => none
  | some t =>
    if pyLower t = "adobeid" then some "adobeID"
    else if pyLower t = "enterpriseid" then some "enterpriseID"
    else if pyLower t = "federatedid" then some "federatedID"
    else none

/-- An organization-qualified group reference.  `umapi_name = none` is the
default/primary organization. -/
structure AdobeGroup where
  umapi_name : Option String
  group_name : String
  deriving DecidableEq, Repr

/-- Modelled from the spec: `AdobeGroup.create` lives in
`user_sync/engine/umapi.py`, which is not under `src/`.  Spec §4.2: a raw
group specification is either `"org::group"` (organization qualifier before
the `::` delimiter, group name after it) or a bare `"group"` whose
organization defaults to the primary organization; the group name is not
case-normalized at parse time. -/
def AdobeGroup.create (s : String) : AdobeGroup :=
  match (pySplitOnColons s).reverse with
  | [] => ⟨none, s⟩
  | [g] => ⟨none, g⟩
  | g :: orgRev => ⟨some (String.intercalate "::" orgRev.reverse), g⟩

/-- The class constant `SignSyncEngine.DEFAULT_GROUP_NAME`. -/
def DEFAULT_GROUP_NAME : String := "default group"

/-- The configuration-derived state of a `SignSyncEngine` instance that the
sync methods read (built by `__init__`). -/
structure SignSyncEngine where
  user_groups : List (Option String × List String)
  entitlement_groups : List (Option String × List String)
  identity_types : List String
  admin_roles : List (Option String × List (String × List String))
  connectors : List (Option String × SignConnector)
  create_new_users : Bool
  deactivate_sign_only_users : Bool
  test_mode : Bool
  new_account_type : String
  directory_group_filter : Option (List String)

/-- Lines 138-144 (`_groupify`): parse each raw group string and append the
lower-cased group name to its organization's list, preserving input order
(`defaultdict(list)` gives absent organizations the empty list, see `pyGet`). -/
def _groupify (groups : List String) : List (Option String × List String) :=
  groups.foldl
    (fun acc g =>
      let processed_group := AdobeGroup.create g
      appendAt acc processed_group.umapi_name (pyLower processed_group.group_name))
    []

/-- Lines 146-168 (`_admin_role_mapping`): build organization → lower-cased
group name → set of Sign roles; an entry without `sign_role` is a fatal
`AssertionException`, an entry without groups is skipped. -/
def _admin_role_mapping
    (admin_roles : List (Option String × Option (List String))) :
    Except PyErr (List (Option String × List (String × List String))) :=
  admin_roles.foldlM
    (fun acc mapping =>
      match mapping.1 with
      | none => .error (.assertionException "must define a Sign role in admin role mapping")
      | some sign_role =>
        match mapping.2 with
        | none => .ok acc
        | some [] => .ok acc
        | some adobe_groups =>
          .ok (adobe_groups.foldl
            (fun acc2 g =>
              let group := AdobeGroup.create g
              let group_name := pyLower group.group_name
              let orgMap := pyGet acc2 group.umapi_name []
              let cell := pyGet orgMap group_name []
              upsert acc2 group.umapi_name (upsert orgMap group_name (setAdd cell sign_role)))
            acc))
    []

/-- Lines 109-113 (`roles_match`): wrap a scalar roles value into a singleton
list, then compare the two sorted lists (Python `sorted` on strings). -/
def roles_match (resolved_roles : List String) (sign_roles : SignRoles) : Bool :=
  List.insertionSort (· ≤ ·) resolved_roles == List.insertionSort (· ≤ ·) sign_roles.asList

/-- The accumulating loop of `resolve_new_roles` (lines 117-122): starting
from `init` (the empty set in the source), add the mapped role set of every
group that has a mapping, looked up lower-cased. -/
def matchedRolesAcc (role_mapping : List (String × List String)) (groups : List String)
    (init : List String) : List String :=
  groups.foldl
    (fun acc group =>
      match role_mapping.lookup (pyLower group) with
      | none => acc
      | some sign_roles => setUpdate acc sign_roles)
    init

/-- Lines 115-123 (`resolve_new_roles`): union the role sets of every directory
group that has a mapping (looked up lower-cased); an empty union becomes the
single default role. -/
def resolve_new_roles (umapi_user : DirUser) (role_mapping : List (String × List String)) :
    List String :=
  let roles := matchedRolesAcc role_mapping umapi_user.groups []
  if roles.isEmpty then ["NORMAL_USER"] else roles

/-- Lines 125-136 (`should_sync`): the Python expression
`set(umapi_user['groups']) & set(self.entitlement_groups[org_name]) and
umapi_user['type'] in self.identity_types` is truthy iff the exact-string
intersection is non-empty and the identity type is listed. -/
def should_sync (e : SignSyncEngine) (umapi_user : DirUser) (org_name : Option String) : Bool :=
  umapi_user.groups.any (fun g => (pyGet e.entitlement_groups org_name []).contains g) &&
    e.identity_types.contains umapi_user.dtype

/-- Lines 89-97 of `update_sign_users`: the first configured candidate that is
a member (exact string equality, Python `in`) of the user's group list wins;
otherwise the default group constant. -/
def selectAssignmentGroup (candidates : List String) (user_groups : List String) : String :=
  match candidates.find? (fun group => user_groups.contains group) with
  | some group => group
  | none => DEFAULT_GROUP_NAME

/-- Lines 240-245 (`get_identity_type_from_directory_user`): fall back to the
configured `new_account_type` (with a warning) when the record has no
`identity_type`. -/
def get_identity_type_from_directory_user (e : SignSyncEngine) (directory_user : DirUser) :
    String :=
  directory_user.identity_type.getD e.new_account_type

/-- The `username = normalize_string(username) or email` step of
`get_user_key`, after `email = normalize_string(email) if email else None`. -/
def effective_username (username email : Option String) : Option String :=
  let processed_email := if truthy email then normalize_string email else none
  let nu := normalize_string username
  if truthy nu then nu else processed_email

/-- Lines 212-238 (`get_user_key`): stringify `(id_type, username, domain)`,
with the domain left empty when the username is email-shaped, and `None` on
invalid input. -/
def get_user_key (id_type username domain email : Option String) : Option String :=
  let idt := parse_identity_type id_type
  let un := effective_username username email
  let dom := normalize_string domain
  if truthy idt = false then none
  else if truthy un = false then none
  else if pyContains (un.getD "") '@' then
    some ((idt.getD "") ++ "," ++ un.getD "" ++ ",")
  else if truthy dom = false then none
  else some ((idt.getD "") ++ "," ++ un.getD "" ++ "," ++ dom.getD "")

/-- Lines 204-210 (`get_directory_user_key`). -/
def get_directory_user_key (e : SignSyncEngine) (directory_user : DirUser) : Option String :=
  get_user_key (some (get_identity_type_from_directory_user e directory_user))
    directory_user.username directory_user.domain (some directory_user.email)

/-- Lines 170-202 (`read_desired_user_groups`): load the directory users and
index them by user key, warning about and skipping users whose key is invalid.
The group set handed to the connector is the keys of `mappings` plus the
optional filter (a Python set; modelled in first-occurrence order), and
`all_users` is set iff there is no filter. -/
def read_desired_user_groups (e : SignSyncEngine) (mappings : List String)
    (directory_connector : DirectoryConnector) : List (String × DirUser) :=
  let directory_groups :=
    match e.directory_group_filter with
    | none => mappings.eraseDups
    | some f => (mappings ++ f).eraseDups
  let directory_users :=
    directory_connector.load_users_and_groups directory_groups e.directory_group_filter.isNone
  directory_users.foldl
    (fun acc directory_user =>
      match get_directory_user_key e directory_user with
      | none => acc
      | some user_key => upsert acc user_key directory_user)
    []

/-- Lines 247-263 (`update_existing_users`): skip when group (Sign side
lower-cased) and roles already match; otherwise call `update_user`.  The
`except AssertionError` clause catches only the built-in `AssertionError`, so
an `AssertionException` raised by the connector escapes uncaught. -/
def update_existing_users (conn : SignConnector) (sign_user : SignUser)
    (_directory_user : DirUser) (group_id : String) (user_roles : List String)
    (assignment_group : String) : Res :=
  let update_data : UpdateData :=
    ⟨sign_user.email, sign_user.firstName, group_id, sign_user.lastName, user_roles⟩
  if pyLower sign_user.group == assignment_group && roles_match user_roles sign_user.roles then
    ([], none)
  else
    match conn.update_user sign_user.userId update_data with
    | .ok _ => ([.update sign_user.userId update_data], none)
    | .error (.assertionError _) => ([.update sign_user.userId update_data], none)
    | .error (.assertionException m) =>
      ([.update sign_user.userId update_data], some (.assertionException m))

/-- Lines 265-288 (`insert_new_users`): call `insert_user`; an
`AssertionException` is caught and logged, while a built-in `AssertionError`
would escape. -/
def insert_new_users (conn : SignConnector) (directory_user : DirUser)
    (user_roles : List String) (group_id : String) (_assignment_group : String) : Res :=
  let insert_data : InsertData :=
    ⟨directory_user.email, directory_user.firstname, group_id, directory_user.lastname,
      user_roles⟩
  match conn.insert_user insert_data with
  | .ok _ => ([.insert insert_data], none)
  | .error (.assertionException _) => ([.insert insert_data], none)
  | .error (.assertionError m) => ([.insert insert_data], some (.assertionError m))

/-- Lines 299-307 (`deactivate_user`): call `deactivate_user` with the
INACTIVE payload; an `AssertionException` is caught and logged, while a
built-in `AssertionError` would escape. -/
def deactivate_user (conn : SignConnector) (sign_user : SignUser) : Res :=
  let deactivation_data : DeactData := ⟨"INACTIVE"⟩
  match conn.deactivate_user sign_user.userId deactivation_data with
  | .ok _ => ([.deactivate sign_user.userId deactivation_data], none)
  | .error (.assertionException _) => ([.deactivate sign_user.userId deactivation_data], none)
  | .error (.assertionError m) =>
    ([.deactivate sign_user.userId deactivation_data], some (.assertionError m))

/-- The lower-cased directory-user emails that shield Sign users from the
deactivation sweep (lines 292-294 of `deactivate_sign_users`). -/
def protectionEmails (directory_users : List (String × DirUser)) : List String :=
  directory_users.map (fun p => pyLower p.2.email)

/-- The Sign users for which the sweep invokes `deactivate_user`: those whose
lower-cased email is absent from the directory emails (line 296). -/
def sweepTargets (conn : SignConnector) (directory_users : List (String × DirUser)) :
    List (String × SignUser) :=
  conn.get_users.filter
    (fun p => !(protectionEmails directory_users).contains (pyLower p.2.email))

/-- Lines 290-297 (`deactivate_sign_users`): re-read the Sign roster and
deactivate every Sign user whose lower-cased email is not among the
lower-cased directory emails. -/
def deactivate_sign_users (conn : SignConnector) (directory_users : List (String × DirUser)) :
    Res :=
  let sign_users := conn.get_users
  runAll sign_users
    (fun p =>
      if !(protectionEmails directory_users).contains (pyLower p.2.email) then
        deactivate_user conn p.2
      else ([], none))

/-- The body of the `update_sign_users` loop (lines 84-107) for one directory
user, against the Sign roster snapshot `sign_users` read once before the loop. -/
def sync_one_user (e : SignSyncEngine) (conn : SignConnector) (org_name : Option String)
    (sign_users : List (String × SignUser)) (directory_user : DirUser) : Res :=
  let sign_user := sign_users.lookup directory_user.email
  if !should_sync e directory_user org_name then ([], none)
  else
    let assignment_group :=
      selectAssignmentGroup (pyGet e.user_groups org_name []) directory_user.groups
    let group_id := conn.get_group assignment_group
    let admin_roles := pyGet e.admin_roles org_name []
    let user_roles := resolve_new_roles directory_user admin_roles
    let insRes :=
      if e.create_new_users && sign_user.isNone then
        insert_new_users conn directory_user user_roles group_id assignment_group
      else ([], none)
    andThen insRes
      (fun _ =>
        match sign_user with
        | none => ([], none)
        | some su =>
          update_existing_users conn su directory_user group_id user_roles assignment_group)

/-- Lines 82-107 (`update_sign_users`): read the Sign roster once, then run the
per-user body over every directory user in the snapshot. -/
def update_sign_users (e : SignSyncEngine) (directory_users : List (String × DirUser))
    (conn : SignConnector) (org_name : Option String) : Res :=
  let sign_users := conn.get_users
  runAll directory_users (fun p => sync_one_user e conn org_name sign_users p.2)

/-- Lines 60-80 (`run`): return immediately in test mode; otherwise read the
directory snapshot (the `is None` guard on line 71 is dead, the snapshot dict
is never `None`), then per organization create the missing Sign groups (a
Python set difference, modelled in first-occurrence order; `create_group`
failures are not caught by the engine and are modelled as succeeding), run the
create/update pass, and optionally the deactivation sweep. -/
def SignSyncEngine.run (e : SignSyncEngine) (mappings : List String)
    (directory_connector : DirectoryConnector) : Res :=
  if e.test_mode then ([], none)
  else
    let directory_users := read_desired_user_groups e mappings directory_connector
    runAll e.connectors
      (fun oc =>
        let org_name := oc.1
        let conn := oc.2
        let new_groups :=
          (pyGet e.user_groups org_name []).eraseDups.filter
            (fun g => !conn.sign_groups.contains g)
        andThen (new_groups.map Action.createGroup, none)
          (fun _ =>
            andThen (update_sign_users e directory_users conn org_name)
              (fun _ =>
                if e.deactivate_sign_only_users then
                  deactivate_sign_users conn directory_users
                else ([], none))))

/-!
Specification-side definitions (stated from the claims' words, for comparison
with the code-side definitions above), and concrete fixtures used by the
counterexamples and witnesses.
-/

/-- Claim C1's selection rule, stated from the spec's words: the assignment
group is the first configured candidate that is present case-insensitively in
the user's directory-group set, with the default group as fallback.  Compare
with the code-side `selectAssignmentGroup`. -/
def specSelectAssignmentGroup (candidates : List String) (user_groups : List String) : String :=
  match candidates.find? (fun c => user_groups.any (fun g => pyLower g == pyLower c)) with
  | some c => c
  | none => DEFAULT_GROUP_NAME

/-- An existing Sign user `a@x.com` whose group and roles differ from any
resolved state used in the tests below. -/
def suA : SignUser := ⟨"idA", "a@x.com", "Ann", "Lee", "old group", SignRoles.list ["GROUP_ADMIN"]⟩

/-- An existing Sign user `b@x.com`. -/
def suB : SignUser := ⟨"idB", "b@x.com", "Bob", "Roy", "old group", SignRoles.list ["GROUP_ADMIN"]⟩

/-- A Sign user whose group and roles already match the resolved state of the
C6 witness (group case differs only in casing, roles differ only in order). -/
def suC6 : SignUser := ⟨"idC", "c@x.com", "Cal", "Poe", "Group One", SignRoles.list ["A", "B"]⟩

/-- Directory user `a@x.com`, member of the entitlement group `signers`. -/
def duA : DirUser := ⟨"a@x.com", "Ann", "Lee", none, none, "federatedID", none, ["signers"]⟩

/-- Directory user `b@x.com`, member of the entitlement group `signers`. -/
def duB : DirUser := ⟨"b@x.com", "Bob", "Roy", none, none, "federatedID", none, ["signers"]⟩

/-- Directory user `c@x.com`, in the mixed-case directory group `Legal` and in
the entitlement group `signers`. -/
def duC1 : DirUser := ⟨"c@x.com", "Cal", "Poe", none, none, "federatedID", none, ["Legal", "signers"]⟩

/-- Directory user whose only group is the mixed-case `Sign Users`. -/
def duC3 : DirUser := ⟨"a@x.com", "Ann", "Lee", none, none, "federatedID", none, ["Sign Users"]⟩

/-- A connector with two existing users whose `update_user` call always fails
with the project's `AssertionException` (the error type its API layer raises),
while inserts and deactivations succeed. -/
def connC2 : SignConnector :=
  { sign_groups := ["default group"]
    get_users := [("a@x.com", suA), ("b@x.com", suB)]
    get_group := fun g => "id-" ++ g
    insert_user := fun _ => .ok ()
    update_user := fun _ _ => .error (.assertionException "Sign API error")
    deactivate_user := fun _ _ => .ok () }

/-- An engine configured with entitlement group `signers`, no user-group
candidates, and no admin-role mappings. -/
def engC2 : SignSyncEngine :=
  { user_groups := []
    entitlement_groups := _groupify ["signers"]
    identity_types := ["federatedID"]
    admin_roles := []
    connectors := []
    create_new_users := false
    deactivate_sign_only_users := false
    test_mode := false
    new_account_type := "federatedID"
    directory_group_filter := none }

/-- The C2 engine with user creation enabled and the raw configured candidate
list `["Legal"]` (stored lower-cased by `_groupify`). -/
def engC1 : SignSyncEngine :=
  { engC2 with user_groups := _groupify ["Legal"], create_new_users := true }

/-- An engine whose entitlement configuration names the mixed-case group
`Sign Users` (stored lower-cased by `_groupify`). -/
def engC3 : SignSyncEngine :=
  { engC2 with entitlement_groups := _groupify ["Sign Users"] }

/-- The C2 engine with test mode enabled and everything mutable switched on,
with a live connector attached. -/
def engC7 : SignSyncEngine :=
  { engC2 with test_mode := true, connectors := [(none, connC2)],
               create_new_users := true, deactivate_sign_only_users := true }

/-- A directory connector returning exactly one user, `duC3`. -/
def dcC3 : DirectoryConnector := ⟨fun _ _ => [duC3]⟩

/-- The C2 connector with an empty Sign roster. -/
def connC10 : SignConnector := { connC2 with get_users := [] }

/-- A role-mapping table sending the directory group `legal` to the single
Sign role `ACCOUNT_ADMIN`. -/
def rmC5 : List (String × List String) := [("legal", ["ACCOUNT_ADMIN"])]

/-- A directory user whose only group, `Sales`, has no role mapping. -/
def duSales : DirUser := ⟨"s@x.com", "Sal", "Es", none, none, "federatedID", none, ["Sales"]⟩

/-- A directory user in the directory group `Legal` (mapped lower-cased). -/
def duLegal : DirUser := ⟨"l@x.com", "Leg", "Al", none, none, "federatedID", none, ["Legal"]⟩

/-- The C2 engine with user creation enabled. -/
def engC10 : SignSyncEngine := { engC2 with create_new_users := true }

/-- A directory connector returning exactly one user, `duA`. -/
def dcA : DirectoryConnector := ⟨fun _ _ => [duA]⟩

/-!
Helper lemmas shared by the claim theorems.
-/

/-- Sorting with `insertionSort` is invariant under permutation (strings carry
a linear order, so the sorted representative is unique). -/
theorem insertionSort_eq_of_perm {l₁ l₂ : List String} (h : l₁.Perm l₂) :
    List.insertionSort (· ≤ ·) l₁ = List.insertionSort (· ≤ ·) l₂ :=
  List.eq_of_perm_of_sorted
    (((List.perm_insertionSort _ l₁).trans h).trans (List.perm_insertionSort _ l₂).symm)
    (List.sorted_insertionSort _ l₁) (List.sorted_insertionSort _ l₂)

/-- A permutation of the (wrapped) Sign roles makes `roles_match` succeed. -/
theorem roles_match_of_perm {user_roles : List String} {sign_roles : SignRoles}
    (h : user_roles.Perm sign_roles.asList) : roles_match user_roles sign_roles = true := by
  unfold roles_match
  rw [insertionSort_eq_of_perm h]
  exact beq_self_eq_true _

/-- Sequencing with a trivial continuation keeps the trace of the first part. -/
theorem andThen_unit_fst (a : Res) : (andThen a (fun _ => ([], none))).1 = a.1 := by
  unfold andThen
  cases ha : a.2 <;> simp

/-- The insert step always issues exactly the one insert call, whether or not
the connector reports an error for it. -/
theorem insert_new_users_trace (conn : SignConnector) (du : DirUser)
    (user_roles : List String) (group_id assignment_group : String) :
    (insert_new_users conn du user_roles group_id assignment_group).1 =
      [Action.insert ⟨du.email, du.firstname, group_id, du.lastname, user_roles⟩] := by
  unfold insert_new_users
  cases hins : conn.insert_user ⟨du.email, du.firstname, group_id, du.lastname, user_roles⟩ with
  | ok u => simp [hins]
  | error err => cases err <;> simp [hins]

/-!
Claim theorems.
-/

/-- C3 counterexample.  The engine stores entitlement-group names lower-cased
(`_groupify`), but `should_sync` intersects them with the user's directory
groups by exact string equality: a user in the mixed-case group `Sign Users`
with an allow-listed identity type fails the gate even though the group
matches the configured entitlement group `sign users` case-insensitively, so
the claimed iff (with case-insensitive intersection) is false at this input. -/
theorem C3_counterexample :
    should_sync engC3 duC3 none = false ∧
    engC3.identity_types.contains duC3.dtype = true ∧
    duC3.groups.contains "Sign Users" = true ∧
    (pyGet engC3.entitlement_groups none []).contains "sign users" = true ∧
    pyLower "Sign Users" = "sign users" :=
  ⟨rfl, rfl, rfl, rfl, rfl⟩

/-- C3 (amended): `should_sync` returns `true` iff the user's directory-group
set intersects the organization's entitlement-group set by exact (case
sensitive) string equality — the entitlement names having been lower-cased at
configuration time — and the user's identity type is in the configured
allow-list. -/
theorem C3_amended_should_sync (e : SignSyncEngine) (u : DirUser) (org : Option String) :
    should_sync e u org = true ↔
      ((∃ g ∈ u.groups, g ∈ pyGet e.entitlement_groups org []) ∧
        u.dtype ∈ e.identity_types) := by
  simp [should_sync, List.any_eq_true]

/-- C3 witness: a user whose directory group is exactly the stored lower-cased
entitlement name passes the gate. -/
theorem C3_amended_witness :
    should_sync engC3 ⟨"a@x.com", "Ann", "Lee", none, none, "federatedID", none,
      ["sign users"]⟩ none = true :=
  (C3_amended_should_sync engC3 _ none).mpr (by decide)

/-- C1 counterexample.  The configured candidate `Legal` is stored lower-cased
as `legal`; for a directory user in the mixed-case group `Legal` the candidate
is present case-insensitively (the claim then requires assignment group
`legal`), but the code's membership test is exact, so the selection falls
through to `default group` — observable end to end in the insert issued by
`update_sign_users`. -/
theorem C1_counterexample :
    pyGet (_groupify ["Legal"]) none [] = ["legal"] ∧
    selectAssignmentGroup (pyGet (_groupify ["Legal"]) none []) duC1.groups =
      "default group" ∧
    specSelectAssignmentGroup (pyGet (_groupify ["Legal"]) none []) duC1.groups = "legal" ∧
    update_sign_users engC1 [("k3", duC1)] connC2 none =
      ([Action.insert ⟨"c@x.com", "Cal", "id-default group", "Poe", ["NORMAL_USER"]⟩], none) :=
  ⟨rfl, rfl, rfl, rfl⟩

/-- C1 (amended): the assignment group is the first candidate of the
organization's configured ordered candidate list (stored lower-cased) that
occurs verbatim — by exact string equality — in the user's directory-group
set; when no candidate occurs verbatim it is the literal default group name
constant. -/
theorem C1_amended_first_verbatim_match (candidates user_groups : List String) :
    ((∀ c ∈ candidates, c ∉ user_groups) →
      selectAssignmentGroup candidates user_groups = DEFAULT_GROUP_NAME) ∧
    (∀ pre g post, candidates = pre ++ g :: post → g ∈ user_groups →
      (∀ c ∈ pre, c ∉ user_groups) →
      selectAssignmentGroup candidates user_groups = g) := by
  constructor
  · intro h
    unfold selectAssignmentGroup
    have hf : candidates.find? (fun group => user_groups.contains group) = none := by
      rw [List.find?_eq_none]
      intro x hx
      simpa using h x hx
    rw [hf]
  · intro pre g post hc hg hpre
    subst hc
    induction pre with
    | nil =>
      unfold selectAssignmentGroup
      rw [List.nil_append, List.find?_cons_of_pos _ (by simpa using hg)]
    | cons a as ih =>
      have ha : ¬ a ∈ user_groups := hpre a (by simp)
      have step : selectAssignmentGroup (a :: (as ++ g :: post)) user_groups =
          selectAssignmentGroup (as ++ g :: post) user_groups := by
        unfold selectAssignmentGroup
        rw [List.find?_cons_of_neg _ (by simpa using ha)]
      rw [List.cons_append, step]
      exact ih (fun c hc => hpre c (by simp [hc]))

/-- C1 witness for the amended rule: no verbatim match falls back to the
default group, and the first verbatim match wins over later candidates. -/
theorem C1_amended_witness :
    selectAssignmentGroup ["finance"] ["Legal"] = "default group" ∧
    selectAssignmentGroup ["finance", "legal"] ["legal", "extra"] = "legal" :=
  ⟨(C1_amended_first_verbatim_match ["finance"] ["Legal"]).1 (by decide),
   (C1_amended_first_verbatim_match ["finance", "legal"] ["legal", "extra"]).2
     ["finance"] "legal" [] rfl (by decide) (by decide)⟩

/-- C2 is a code bug: `update_existing_users` catches the built-in
`AssertionError` instead of the project's `AssertionException` that the
connector raises, so a failing per-user update escapes and aborts the
remaining users.  With two eligible users both needing updates and a connector
whose `update_user` raises `AssertionException`, the batch trace stops at the
first user's failed call and carries the uncaught exception; the second
conjunct shows the second user's own step would have issued an update call,
so the abort (not eligibility) is what suppressed it. -/
theorem C2_update_failure_aborts_batch :
    update_sign_users engC2 [("k1", duA), ("k2", duB)] connC2 none =
      ([Action.update "idA" ⟨"a@x.com", "Ann", "id-default group", "Lee", ["NORMAL_USER"]⟩],
        some (PyErr.assertionException "Sign API error")) ∧
    sync_one_user engC2 connC2 none connC2.get_users duB =
      ([Action.update "idB" ⟨"b@x.com", "Bob", "id-default group", "Roy", ["NORMAL_USER"]⟩],
        some (PyErr.assertionException "Sign API error")) :=
  ⟨rfl, rfl⟩

/-- C7: with `test_mode` set, `run` returns before reading the directory and
before any connector interaction, so no mutating call of any kind is issued
and no exception escapes. -/
theorem C7_test_mode_no_calls (e : SignSyncEngine) (mappings : List String)
    (dc : DirectoryConnector) (h : e.test_mode = true) :
    e.run mappings dc = ([], none) := by
  simp [SignSyncEngine.run, h]

/-- C7 witness: a fully armed engine (creation and deactivation enabled, live
connector attached) in test mode issues nothing. -/
theorem C7_witness : engC7.run ["signers"] dcA = ([], none) :=
  C7_test_mode_no_calls engC7 ["signers"] dcA rfl

/-- C6: no update call is issued when the Sign user's current group equals the
resolved assignment group case-insensitively (the resolved assignment group is
itself lower-case, being either a `_groupify`-stored candidate or the default
constant) and the role sets agree up to order, a scalar Sign roles value
counting as its one-element list (`SignRoles.asList`). -/
theorem C6_no_update_when_state_matches (conn : SignConnector) (sign_user : SignUser)
    (du : DirUser) (group_id : String) (user_roles : List String) (assignment_group : String)
    (hg : pyLower sign_user.group = pyLower assignment_group)
    (hlow : pyLower assignment_group = assignment_group)
    (hroles : user_roles.Perm sign_user.roles.asList) :
    update_existing_users conn sign_user du group_id user_roles assignment_group = ([], none) := by
  have hgs : pyLower sign_user.group = assignment_group := hg.trans hlow
  have hrm : roles_match user_roles sign_user.roles = true := roles_match_of_perm hroles
  simp [update_existing_users, hgs, hrm]

/-- C6 witness: a Sign user whose group differs only by case and whose role
list differs only by order receives no update call. -/
theorem C6_witness :
    update_existing_users connC2 suC6 duA "gid" ["B", "A"] "group one" = ([], none) :=
  C6_no_update_when_state_matches connC2 suC6 duA "gid" ["B", "A"] "group one"
    (by decide) (by decide) (by decide)

/-- C8: identity-key construction.  (1) When the normalized effective username
contains an `@` marker the produced key does not depend on the domain
argument, and (2) it ends in the component separator followed by the empty
domain component.  Construction returns `none` (it does not throw) when
(3) the identity type is missing, (4) the username and the email are both
absent (or empty after normalization), and (5) the username has no `@` marker
and the domain is absent (or empty after normalization). -/
theorem C8_user_key :
    (∀ id_type username domain domain2 email,
      pyContains ((effective_username username email).getD "") '@' = true →
      get_user_key id_type username domain email = get_user_key id_type username domain2 email) ∧
    (∀ id_type username domain email k,
      pyContains ((effective_username username email).getD "") '@' = true →
      get_user_key id_type username domain email = some k → ∃ s, k = s ++ ",") ∧
    (∀ username domain email, get_user_key none username domain email = none) ∧
    (∀ id_type username domain email, truthy (normalize_string username) = false →
      truthy email = false → get_user_key id_type username domain email = none) ∧
    (∀ id_type username domain email,
      pyContains ((effective_username username email).getD "") '@' = false →
      truthy (normalize_string domain) = false →
      get_user_key id_type username domain email = none) := by
  refine ⟨?_, ?_, ?_, ?_, ?_⟩
  · intro id_type username domain domain2 email h
    simp [get_user_key, h]
  · intro id_type username domain email k h hk
    simp only [get_user_key, h, if_true] at hk
    split at hk
    · exact absurd hk (by simp)
    · split at hk
      · exact absurd hk (by simp)
      · exact ⟨_, (Option.some.inj hk).symm⟩
  · intro username domain email
    simp [get_user_key, parse_identity_type, truthy]
  · intro id_type username domain email h1 h2
    have hu : effective_username username email = none := by
      simp [effective_username, h1, h2]
    simp [get_user_key, hu, truthy]
  · intro id_type username domain email h1 h2
    simp [get_user_key, h1, h2]

/-- C8 witness: the key of an email-shaped username ignores the domain and has
an empty domain component; a missing identity type, a missing
username-and-email, and an email-less username without domain all yield
`none`. -/
theorem C8_witness :
    get_user_key (some "federatedID") (some "A@x.com") (some "d1") none =
      get_user_key (some "federatedID") (some "A@x.com") (some "d2") none ∧
    ("federatedID" ++ "," ++ "a@x.com" ++ "," =
      ("federatedID" ++ "," ++ "a@x.com") ++ ",") ∧
    get_user_key none (some "bob") (some "d") none = none ∧
    get_user_key (some "federatedID") none (some "d") none = none ∧
    get_user_key (some "federatedID") (some "bob") none (some "b@x.com") = none :=
  ⟨C8_user_key.1 _ _ _ _ _ (by decide), rfl,
   C8_user_key.2.2.1 _ _ _,
   C8_user_key.2.2.2.1 _ _ _ _ (by decide) (by decide),
   C8_user_key.2.2.2.2 _ _ _ _ (by decide) (by decide)⟩

/-- C10: for a directory user whose email is not a key of the Sign roster
snapshot (read once, before the loop), the per-user body issues no update
call; when creation is enabled and the user is eligible it issues the insert
for that user instead, and still no update follows in the same pass. -/
theorem C10_inserted_user_gets_no_update (e : SignSyncEngine) (conn : SignConnector)
    (org : Option String) (du : DirUser)
    (h : conn.get_users.lookup du.email = none) :
    (∀ uid d, Action.update uid d ∉ (sync_one_user e conn org conn.get_users du).1) ∧
    (e.create_new_users = true → should_sync e du org = true →
      ∃ d : InsertData, Action.insert d ∈ (sync_one_user e conn org conn.get_users du).1 ∧
        d.email = du.email) := by
  have htrace : (sync_one_user e conn org conn.get_users du).1 =
      if should_sync e du org && e.create_new_users then
        [Action.insert ⟨du.email, du.firstname,
          conn.get_group (selectAssignmentGroup (pyGet e.user_groups org []) du.groups),
          du.lastname, resolve_new_roles du (pyGet e.admin_roles org [])⟩]
      else [] := by
    unfold sync_one_user
    rw [h]
    cases hs : should_sync e du org with
    | false => simp
    | true =>
      cases hc : e.create_new_users with
      | false => simp [andThen]
      | true => simp [andThen_unit_fst, insert_new_users_trace]
  rw [htrace]
  constructor
  · intro uid d
    split <;> simp
  · intro hc hs
    rw [hs, hc]
    exact ⟨⟨du.email, du.firstname,
      conn.get_group (selectAssignmentGroup (pyGet e.user_groups org []) du.groups),
      du.lastname, resolve_new_roles du (pyGet e.admin_roles org [])⟩, by simp, rfl⟩

/-- The deactivation step always issues exactly its one deactivate call,
whether or not the connector reports an error for it. -/
theorem deactivate_user_trace (conn : SignConnector) (su : SignUser) :
    (deactivate_user conn su).1 = [Action.deactivate su.userId ⟨"INACTIVE"⟩] := by
  unfold deactivate_user
  cases hd : conn.deactivate_user su.userId ⟨"INACTIVE"⟩ with
  | ok u => simp [hd]
  | error err => cases err <;> simp [hd]

/-- When the connector's deactivate call never raises the built-in
`AssertionError`, no exception escapes the step (the project's
`AssertionException` is caught there). -/
theorem deactivate_user_no_escape (conn : SignConnector) (su : SignUser)
    (h : ∀ uid d m, conn.deactivate_user uid d ≠ Except.error (PyErr.assertionError m)) :
    (deactivate_user conn su).2 = none := by
  unfold deactivate_user
  cases hd : conn.deactivate_user su.userId ⟨"INACTIVE"⟩ with
  | ok u => simp [hd]
  | error err =>
    cases err with
    | assertionError m => exact absurd hd (h _ _ m)
    | assertionException m => simp [hd]

/-- The sweep loop over any Sign roster issues exactly the deactivate calls of
the roster entries whose lower-cased email is unprotected, in roster order. -/
theorem sweep_loop_trace (conn : SignConnector) (directory_users : List (String × DirUser))
    (l : List (String × SignUser))
    (h : ∀ uid d m, conn.deactivate_user uid d ≠ Except.error (PyErr.assertionError m)) :
    runAll l (fun p =>
        if !(protectionEmails directory_users).contains (pyLower p.2.email) then
          deactivate_user conn p.2
        else ([], none)) =
      ((l.filter
          (fun p => !(protectionEmails directory_users).contains (pyLower p.2.email))).map
        (fun p => Action.deactivate p.2.userId ⟨"INACTIVE"⟩), none) := by
  induction l with
  | nil => rfl
  | cons x xs ih =>
    simp only [runAll, andThen]
    rw [ih]
    have h2 := deactivate_user_no_escape conn x.2 h
    have h1 := deactivate_user_trace conn x.2
    by_cases hc : pyLower x.2.email ∈ protectionEmails directory_users
    · simp [hc, List.filter_cons]
    · simp [hc, h1, h2, List.filter_cons]

/-- C4: assuming the connector reports failures only through the project's
`AssertionException` (never the built-in `AssertionError`), the deactivation
sweep issues a deactivate call for exactly the Sign users whose lower-cased
email is absent from the lower-cased directory-user emails — the filtered
roster `sweepTargets` — and no exception escapes the sweep. -/
theorem C4_sweep_exactly_unprotected (conn : SignConnector)
    (directory_users : List (String × DirUser))
    (h : ∀ uid d m, conn.deactivate_user uid d ≠ Except.error (PyErr.assertionError m)) :
    deactivate_sign_users conn directory_users =
      ((sweepTargets conn directory_users).map
        (fun p => Action.deactivate p.2.userId ⟨"INACTIVE"⟩), none) := by
  unfold deactivate_sign_users sweepTargets
  exact sweep_loop_trace conn directory_users conn.get_users h

/-- C4 witness: with directory snapshot `a@x.com` and Sign roster
`a@x.com, b@x.com`, exactly `b@x.com` is deactivated. -/
theorem C4_witness :
    deactivate_sign_users connC2 [("k1", duA)] =
      ([Action.deactivate "idB" ⟨"INACTIVE"⟩], none) := by
  rw [C4_sweep_exactly_unprotected connC2 [("k1", duA)]
    (fun uid d m => by simp [connC2])]
  rfl

/-- C10 witness: with creation enabled and an empty Sign roster, the eligible
user `a@x.com` is inserted and receives no update in the same pass. -/
theorem C10_witness :
    Action.update "idA" ⟨"a@x.com", "Ann", "id-default group", "Lee", ["NORMAL_USER"]⟩ ∉
      (sync_one_user engC10 connC10 none connC10.get_users duA).1 ∧
    (∃ d : InsertData, Action.insert d ∈ (sync_one_user engC10 connC10 none
      connC10.get_users duA).1 ∧ d.email = duA.email) :=
  ⟨(C10_inserted_user_gets_no_update engC10 connC10 none duA rfl).1 "idA" _,
   (C10_inserted_user_gets_no_update engC10 connC10 none duA rfl).2 rfl rfl⟩

/-- Membership in a set after `setAdd`. -/
theorem setAdd_mem (l : List String) (x y : String) : y ∈ setAdd l x ↔ y ∈ l ∨ y = x := by
  unfold setAdd
  split
  · rename_i hx
    constructor
    · exact Or.inl
    · rintro (hy | rfl)
      · exact hy
      · exact hx
  · simp

/-- `setAdd` keeps the set representation duplicate-free. -/
theorem setAdd_nodup {l : List String} (h : l.Nodup) (x : String) : (setAdd l x).Nodup := by
  unfold setAdd
  split
  · exact h
  · rename_i hx
    rw [List.nodup_append]
    exact ⟨h, List.nodup_singleton x, by simpa [List.disjoint_singleton] using hx⟩

/-- Membership in a set after `setUpdate`. -/
theorem setUpdate_mem (l xs : List String) (y : String) :
    y ∈ setUpdate l xs ↔ y ∈ l ∨ y ∈ xs := by
  induction xs generalizing l with
  | nil => simp [setUpdate]
  | cons a as ih =>
    show y ∈ setUpdate (setAdd l a) as ↔ _
    rw [ih, setAdd_mem]
    simp [or_assoc]

/-- `setUpdate` keeps the set representation duplicate-free. -/
theorem setUpdate_nodup {l : List String} (h : l.Nodup) (xs : List String) :
    (setUpdate l xs).Nodup := by
  induction xs generalizing l with
  | nil => exact h
  | cons a as ih => exact ih (setAdd_nodup h a)

/-- Membership in the role accumulator: a role is collected iff it was already
in the accumulator or belongs to the mapped role set of some group of the list
(`(rm.lookup (pyLower g)).getD []` being empty exactly for unmapped groups). -/
theorem matchedRolesAcc_mem (rm : List (String × List String)) (groups : List String)
    (init : List String) (r : String) :
    r ∈ matchedRolesAcc rm groups init ↔
      r ∈ init ∨ ∃ g ∈ groups, r ∈ (rm.lookup (pyLower g)).getD [] := by
  induction groups generalizing init with
  | nil => simp [matchedRolesAcc]
  | cons a as ih =>
    cases hl : rm.lookup (pyLower a) with
    | none =>
      have step : matchedRolesAcc rm (a :: as) init = matchedRolesAcc rm as init := by
        show matchedRolesAcc rm as
          (match rm.lookup (pyLower a) with
            | none => init
            | some sign_roles => setUpdate init sign_roles) = _
        rw [hl]
      rw [step, ih]
      simp [List.mem_cons, exists_eq_or_imp, hl]
    | some rs =>
      have step : matchedRolesAcc rm (a :: as) init = matchedRolesAcc rm as (setUpdate init rs) := by
        show matchedRolesAcc rm as
          (match rm.lookup (pyLower a) with
            | none => init
            | some sign_roles => setUpdate init sign_roles) = _
        rw [hl]
      rw [step, ih, setUpdate_mem]
      simp [List.mem_cons, exists_eq_or_imp, hl, or_assoc]

/-- When no group of the list is mapped, the accumulator is unchanged. -/
theorem matchedRolesAcc_all_none (rm : List (String × List String)) (groups : List String)
    (init : List String) (h : ∀ g ∈ groups, rm.lookup (pyLower g) = none) :
    matchedRolesAcc rm groups init = init := by
  induction groups generalizing init with
  | nil => rfl
  | cons a as ih =>
    have step : matchedRolesAcc rm (a :: as) init = matchedRolesAcc rm as init := by
      show matchedRolesAcc rm as
        (match rm.lookup (pyLower a) with
          | none => init
          | some sign_roles => setUpdate init sign_roles) = _
      rw [h a (by simp)]
    rw [step]
    exact ih init (fun g hg => h g (by simp [hg]))

/-- The role accumulator keeps the set representation duplicate-free. -/
theorem matchedRolesAcc_nodup (rm : List (String × List String)) (groups : List String)
    {init : List String} (h : init.Nodup) : (matchedRolesAcc rm groups init).Nodup := by
  induction groups generalizing init with
  | nil => exact h
  | cons a as ih =>
    cases hl : rm.lookup (pyLower a) with
    | none =>
      have step : matchedRolesAcc rm (a :: as) init = matchedRolesAcc rm as init := by
        show matchedRolesAcc rm as
          (match rm.lookup (pyLower a) with
            | none => init
            | some sign_roles => setUpdate init sign_roles) = _
        rw [hl]
      rw [step]
      exact ih h
    | some rs =>
      have step : matchedRolesAcc rm (a :: as) init =
          matchedRolesAcc rm as (setUpdate init rs) := by
        show matchedRolesAcc rm as
          (match rm.lookup (pyLower a) with
            | none => init
            | some sign_roles => setUpdate init sign_roles) = _
        rw [hl]
      rw [step]
      exact ih (setUpdate_nodup h rs)

/-- C5: `resolve_new_roles` returns exactly the default sentinel when no
directory group of the user has a role mapping (looked up lower-cased); when
some group maps to a non-empty role set, the result's members are exactly the
roles of the matching groups' role sets; the result is duplicate-free and
always non-empty. -/
theorem C5_resolve_new_roles (u : DirUser) (rm : List (String × List String)) :
    ((∀ g ∈ u.groups, rm.lookup (pyLower g) = none) →
      resolve_new_roles u rm = ["NORMAL_USER"]) ∧
    ((∃ g ∈ u.groups, (rm.lookup (pyLower g)).getD [] ≠ []) →
      ∀ r, r ∈ resolve_new_roles u rm ↔
        ∃ g ∈ u.groups, r ∈ (rm.lookup (pyLower g)).getD []) ∧
    (resolve_new_roles u rm).Nodup ∧ resolve_new_roles u rm ≠ [] := by
  have hdef : resolve_new_roles u rm =
      if (matchedRolesAcc rm u.groups []).isEmpty then ["NORMAL_USER"]
      else matchedRolesAcc rm u.groups [] := rfl
  refine ⟨?_, ?_, ?_, ?_⟩
  · intro h
    rw [hdef, matchedRolesAcc_all_none rm u.groups [] h]
    rfl
  · rintro ⟨g, hg, hne⟩ r
    rcases hrs : (rm.lookup (pyLower g)).getD [] with _ | ⟨r0, rs'⟩
    · exact absurd hrs hne
    · have hr0 : r0 ∈ matchedRolesAcc rm u.groups [] :=
        (matchedRolesAcc_mem rm u.groups [] r0).mpr (Or.inr ⟨g, hg, by rw [hrs]; simp⟩)
      have hemp : (matchedRolesAcc rm u.groups []).isEmpty = false := by
        rw [List.isEmpty_eq_false]
        intro hnil
        rw [hnil] at hr0
        exact absurd hr0 (List.not_mem_nil r0)
      rw [hdef, hemp]
      simp only [Bool.false_eq_true, if_false]
      rw [matchedRolesAcc_mem]
      simp
  · rw [hdef]
    cases hemp : (matchedRolesAcc rm u.groups []).isEmpty with
    | true => simp
    | false => simpa using matchedRolesAcc_nodup rm u.groups List.nodup_nil
  · rw [hdef]
    cases hemp : (matchedRolesAcc rm u.groups []).isEmpty with
    | true => simp
    | false => simpa [List.isEmpty_eq_false] using hemp

/-- C5 witness (the spec's scenario 2): a user whose groups have no mapping
resolves to the default sentinel alone; a user in `Legal` resolves to the
mapped role `ACCOUNT_ADMIN`. -/
theorem C5_witness :
    resolve_new_roles duSales rmC5 = ["NORMAL_USER"] ∧
    "ACCOUNT_ADMIN" ∈ resolve_new_roles duLegal rmC5 :=
  ⟨(C5_resolve_new_roles duSales rmC5).1 (by decide),
   ((C5_resolve_new_roles duLegal rmC5).2.1 (by decide) "ACCOUNT_ADMIN").mpr (by decide)⟩

/-- A pointwise property of dict entries is preserved by `upsert` when the new
binding satisfies it. -/
theorem upsert_forall {κ β : Type} [BEq κ] (P : κ × β → Prop) (m : List (κ × β)) (k : κ)
    (v : β) (hm : ∀ q ∈ m, P q) (hkv : P (k, v)) : ∀ q ∈ upsert m k v, P q := by
  induction m with
  | nil =>
    intro q hq
    unfold upsert at hq
    rw [List.mem_singleton] at hq
    rw [hq]
    exact hkv
  | cons x xs ih =>
    intro q hq
    unfold upsert at hq
    split at hq
    · rcases List.mem_cons.mp hq with hq1 | hq2
      · rw [hq1]
        exact hkv
      · exact hm q (List.mem_cons.mpr (Or.inr hq2))
    · rcases List.mem_cons.mp hq with hq1 | hq2
      · rw [hq1]
        exact hm x (List.mem_cons_self x xs)
      · exact ih (fun p hp => hm p (List.mem_cons.mpr (Or.inr hp))) q hq2

/-- Every entry of the snapshot accumulator built by `read_desired_user_groups`
is keyed by its own (valid) identity key. -/
theorem snapshot_keys_valid (e : SignSyncEngine) (dus : List DirUser)
    (acc : List (String × DirUser))
    (hacc : ∀ q ∈ acc, get_directory_user_key e q.2 = some q.1) :
    ∀ q ∈ dus.foldl
        (fun acc2 directory_user =>
          match get_directory_user_key e directory_user with
          | none => acc2
          | some user_key => upsert acc2 user_key directory_user)
        acc,
      get_directory_user_key e q.2 = some q.1 := by
  induction dus generalizing acc with
  | nil => exact hacc
  | cons d ds ih =>
    rw [List.foldl_cons]
    cases hk : get_directory_user_key e d with
    | none => exact ih acc hacc
    | some k => exact ih (upsert acc k d) (upsert_forall _ acc k d hacc hk)

/-- C9: the deactivation sweep's protection set is the snapshot built by
`read_desired_user_groups`, which admits every directory user with a valid
identity key and applies no eligibility filtering.  Every snapshot entry is
keyed by a valid identity key, and a Sign user whose lower-cased email matches
a snapshot user's is never passed to `deactivate_user` — even when that
directory user fails `should_sync` for the organization. -/
theorem C9_ineligible_user_still_shields (e : SignSyncEngine) (mappings : List String)
    (dc : DirectoryConnector) (conn : SignConnector) (org : Option String)
    (u : DirUser) (p : String × SignUser)
    (hu : u ∈ (read_desired_user_groups e mappings dc).map (fun q => q.2))
    (_hp : p ∈ conn.get_users)
    (hemail : pyLower p.2.email = pyLower u.email)
    (_hinelig : should_sync e u org = false) :
    (∀ q ∈ read_desired_user_groups e mappings dc, get_directory_user_key e q.2 = some q.1) ∧
    p ∉ sweepTargets conn (read_desired_user_groups e mappings dc) := by
  constructor
  · exact snapshot_keys_valid e _ [] (by simp)
  · intro hmem
    rw [sweepTargets, List.mem_filter] at hmem
    have hin : pyLower u.email ∈ protectionEmails (read_desired_user_groups e mappings dc) := by
      rcases List.mem_map.mp hu with ⟨q, hq, hq2⟩
      exact List.mem_map.mpr ⟨q, hq, by rw [hq2]⟩
    have h2 := hmem.2
    rw [hemail] at h2
    simp [hin] at h2

/-- C9 witness: the directory user in mixed-case group `Sign Users` fails the
eligibility gate, yet still holds a valid identity key in the snapshot and
shields the Sign user `a@x.com` from the sweep. -/
theorem C9_witness :
    get_directory_user_key engC3 duC3 = some "federatedID,a@x.com," ∧
    ("a@x.com", suA) ∉ sweepTargets connC2 (read_desired_user_groups engC3 ["g"] dcC3) :=
  ⟨(C9_ineligible_user_still_shields engC3 ["g"] dcC3 connC2 none duC3 ("a@x.com", suA)
      (by decide) (by decide) rfl rfl).1 ("federatedID,a@x.com,", duC3) (by decide),
   (C9_ineligible_user_still_shields engC3 ["g"] dcC3 connC2 none duC3 ("a@x.com", suA)
      (by decide) (by decide) rfl rfl).2⟩

end UserSync
